import Mathlib

/-!
Shallow embedding of `src/okx_monitor.py` (boduanwang): a polling monitor
that fetches closed OKX candles, classifies 3-candle reversal patterns and
sends deduplicated Telegram alerts.  Pure helpers are translated as Lean
functions; the effectful loop is translated as a step function over an
explicit state, with the environment (file mtime, config load result,
current wall-clock time, HTTP responses, send outcomes) supplied as data.
Python exceptions are modelled with `Except`/`Option`: a `.error`/`none`
result marks a raised exception at the corresponding program point.
-/

namespace OkxMonitor

/-- Whitespace test for Python `str.strip()`, restricted to the ASCII
whitespace that occurs in this program's inputs. -/
def isSpaceChar (c : Char) : Bool :=
  c = ' ' || c = '\t' || c = '\n' || c = '\r'

/-- Character-list strip: drop whitespace from both ends.  (Implemented
over `List Char` with structural recursion so that concrete inputs
evaluate inside the kernel.) -/
def trimChars (l : List Char) : List Char :=
  ((l.dropWhile isSpaceChar).reverse.dropWhile isSpaceChar).reverse

/-- Models Python `str.strip()`. -/
def pyTrim (s : String) : String := ⟨trimChars s.data⟩

/-- ASCII upper-casing, modelling Python `str.upper()` on the
ASCII-plus-CJK inputs this program handles (CJK characters are unchanged
by `upper()`). -/
def pyUpper (s : String) : String := ⟨s.data.map Char.toUpper⟩

/-- ASCII lower-casing, modelling Python `str.lower()` on the
ASCII-plus-CJK inputs this program handles. -/
def pyLower (s : String) : String := ⟨s.data.map Char.toLower⟩

/-- Splitting a character list at every occurrence of a separator, as
Python `str.split(sep)` for a one-character separator: `"".split(sep)`
gives `[""]`, and adjacent separators give empty pieces. -/
def splitOnCharAux (sep : Char) : List Char → List Char → List (List Char)
  | [], acc => [acc.reverse]
  | c :: rest, acc =>
    if c = sep then acc.reverse :: splitOnCharAux sep rest []
    else splitOnCharAux sep rest (c :: acc)

/-- Python `s.split(sep)` for a one-character separator. -/
def splitOnChar (sep : Char) (l : List Char) : List (List Char) :=
  splitOnCharAux sep l []

/-- Digit-string to number: `some` exactly when the list is non-empty
and all digits, the domain on which Python `int()` succeeds. -/
def digitsToNat? (l : List Char) : Option Nat :=
  if l = [] then none
  else if l.all Char.isDigit then
    some (l.foldl (fun a c => a * 10 + (c.toNat - 48)) 0)
  else none

/-- Sign prefix handling shared by the numeric parsers. -/
def applySign (neg : Bool) (q : Rat) : Rat := if neg then -q else q

/-- Models Python `int(s)` on plain decimal literals: optional sign after
stripping whitespace, then digits.  `none` models a raised `ValueError`. -/
def pyInt? (s : String) : Option Int :=
  match trimChars s.data with
  | '-' :: rest => (digitsToNat? rest).map (fun n => -(n : Int))
  | '+' :: rest => (digitsToNat? rest).map (fun n => (n : Int))
  | l => (digitsToNat? l).map (fun n => (n : Int))

/-- Models Python `float(s)` on plain decimal notation (optional sign,
digits, optional fractional part), which is the shape of OKX price
fields.  `none` models a raised `ValueError`. -/
def pyFloat? (s : String) : Option Rat :=
  let t := trimChars s.data
  let sb : Bool × List Char :=
    match t with
    | '-' :: rest => (true, rest)
    | '+' :: rest => (false, rest)
    | _ => (false, t)
  match splitOnChar '.' sb.2 with
  | [a] => (digitsToNat? a).map (fun n => applySign sb.1 (n : Rat))
  | [a, b] =>
    if a = [] ∧ b = [] then none
    else
      match (if a = [] then some 0 else digitsToNat? a) with
      | none => none
      | some na =>
        if b = [] then some (applySign sb.1 (na : Rat))
        else
          (digitsToNat? b).map
            (fun nb =>
              applySign sb.1 ((na : Rat) + (nb : Rat) / ((10 : Rat) ^ b.length)))
  | _ => none

/-- Python `suffix in s` test specialised to `str.endswith`. -/
def endsWithChars (l suf : List Char) : Bool :=
  List.isPrefixOf suf.reverse l.reverse

/-- `normalize_bar` (src lines 34-72): lower-cases and trims the timeframe
code, then looks it up in the fixed alias table, falling back to the
original string. -/
def normalize_bar (bar : String) : String :=
  let b := pyLower (pyTrim bar)
  let mapping : List (String × String) :=
    [("1m", "1m"), ("1min", "1m"), ("1分钟", "1m"),
     ("3m", "3m"), ("3min", "3m"), ("3分钟", "3m"),
     ("5m", "5m"), ("5min", "5m"), ("5分钟", "5m"),
     ("15m", "15m"), ("15min", "15m"), ("15分钟", "15m"),
     ("30m", "30m"), ("30min", "30m"), ("30分钟", "30m"),
     ("1h", "1H"), ("1小时", "1H"),
     ("2h", "2H"), ("2小时", "2H"),
     ("4h", "4H"), ("4小时", "4H"),
     ("6h", "6H"), ("6小时", "6H"),
     ("12h", "12H"), ("12小时", "12H"),
     ("1d", "1D"), ("日线", "1D"), ("1天", "1D"),
     ("1w", "1W"), ("周线", "1W"),
     ("1mth", "1M"), ("1月", "1M"),
     ("1q", "3M"), ("季度", "3M")]
  ((mapping.lookup b).getD bar)

/-- `normalize_contract_type` (src lines 75-79). -/
def normalize_contract_type (t : String) : String :=
  let s := pyUpper (pyTrim t)
  if s = "SWAP" ∨ s = "永续" then "SWAP" else s

/-- `pair_to_inst_id` (src lines 82-106).  `.error msg` models the raised
`ValueError` (the spec's UnsupportedInstrumentFormat).  `base.replace`
on single-character patterns with empty replacement is character
removal. -/
def pair_to_inst_id (pair0 : String) (contract_type0 : String) : Except String String :=
  let pair : List Char := trimChars (pyUpper pair0).data
  let ct := normalize_contract_type contract_type0
  let bq : List Char × List Char :=
    if pair.contains '-' then
      match (splitOnChar '-' pair).filter (fun p => p ≠ []) with
      | p0 :: p1 :: _ => (p0, p1)
      | _ => ([], [])
    else if pair.contains '/' then
      match (splitOnChar '/' pair).filter (fun p => p ≠ []) with
      | p0 :: p1 :: _ => (p0, p1)
      | _ => ([], [])
    else if endsWithChars pair "USDT".data then (pair.take (pair.length - 4), "USDT".data)
    else if endsWithChars pair "USD".data then (pair.take (pair.length - 3), "USD".data)
    else ([], [])
  if bq.1 = [] ∨ bq.2 = [] then .error ("不支持的交易对格式: " ++ ⟨pair⟩)
  else
    let base : List Char := (bq.1.filter (· ≠ '-')).filter (· ≠ '/')
    .ok (⟨base⟩ ++ "-" ++ ⟨bq.2⟩ ++ "-" ++ ct)

/-- A parsed candle as built by `fetch_closed_candles` (src lines 155-164):
timestamp in epoch millis, OHLC prices, and the OKX confirm flag
(1 = the bar is closed). -/
structure CandleP where
  ts : Int
  o : Rat
  h : Rat
  l : Rat
  c : Rat
  confirm : Int
  deriving DecidableEq, Repr

/-- `classify_candle` (src lines 169-170): "阳" = bullish, "阴" = bearish,
"十" = doji. -/
def classify_candle (c : CandleP) : String :=
  if c.c > c.o then "阳" else if c.c < c.o then "阴" else "十"

/-- The bullish-reversal message returned by `pattern_signal`
(src line 178). -/
def bullMsg : String := "可能走强，择机做多！！！"

/-- The bearish-reversal message returned by `pattern_signal`
(src line 180). -/
def bearMsg : String := "可能走弱，择机做空！！！"

/-- `pattern_signal` (src lines 173-181): guards on length < 3, then
matches the classification of the first three candles (oldest first under
the caller's convention). -/
def pattern_signal (last3 : List CandleP) : Option String :=
  if last3.length < 3 then none
  else
    match last3 with
    | a :: b :: c :: _ =>
      let p := [classify_candle a, classify_candle b, classify_candle c]
      if p = ["阴", "阴", "阳"] then some bullMsg
      else if p = ["阳", "阳", "阴"] then some bearMsg
      else none
    | _ => none

/-- The `days` field of a window.  In the source this is the JSON value at
key `"days"` with default `"*"`; the check `days != "*" and
isinstance(days, list) and dow not in days` only restricts the window when
the value is a list, so every non-list value behaves like the wildcard and
`star` models all of them. -/
inductive DaysSpec where
  | star : DaysSpec
  | list : List String → DaysSpec
  deriving DecidableEq, Repr

/-- A time window as read from configuration; `start`/`stop` model the
JSON `"start"`/`"end"` fields (absent = `none`; `end` is a Lean keyword). -/
structure Window where
  days : DaysSpec
  start : Option String
  stop : Option String
  deriving DecidableEq, Repr

/-- The evaluation instant: weekday name (as produced by `_dow_to_name`)
and minute of day, replacing `datetime.now()`. -/
structure NowT where
  dow : String
  minutes : Int
  deriving DecidableEq, Repr

/-- `_time_to_minutes` (src lines 212-218): `some (-1)` when splitting on
":" does not give exactly two parts; `none` models the `ValueError`
raised by `int()` on a non-numeric part. -/
def timeToMinutes (s : String) : Option Int :=
  match splitOnChar ':' (trimChars s.data) with
  | [a, b] => do
    let h ← pyInt? ⟨a⟩
    let m ← pyInt? ⟨b⟩
    some (h * 60 + m)
  | _ => some (-1)

/-- One iteration of the `for w in windows` loop body of `now_in_windows`
(src lines 232-243): `some true` = the window matched (`return True`),
`some false` = no match (`continue` / fall through), `none` = an exception
from `int()` while parsing the window's times. -/
def window_active (w : Window) (now : NowT) : Option Bool := do
  let start ← timeToMinutes (w.start.getD "00:00")
  let stop ← timeToMinutes (w.stop.getD "23:59")
  let dayOk : Bool :=
    match w.days with
    | .star => true
    | .list l => l.contains now.dow
  if !dayOk then some false
  else if start ≤ stop then some (decide (start ≤ now.minutes ∧ now.minutes ≤ stop))
  else some (decide (now.minutes ≥ start ∨ now.minutes ≤ stop))

/-- The window loop of `now_in_windows` (src lines 232-244): first match
wins, exceptions propagate. -/
def now_in_windows_go (now : NowT) : List Window → Option Bool
  | [] => some false
  | w :: rest =>
    match window_active w now with
    | none => none
    | some true => some true
    | some false => now_in_windows_go now rest

/-- `now_in_windows` (src lines 226-244), with the current instant passed
explicitly in place of `datetime.now()`. -/
def now_in_windows (windows : List Window) (now : NowT) : Option Bool :=
  if windows.isEmpty then some true
  else now_in_windows_go now windows

/-- The decoded JSON envelope of the OKX candles endpoint: the `"code"`
field (absent modelled as `none`, which Python's `str(None)` turns into
`"None"`) and the `"data"` array of rows of string fields. -/
structure OkxResp where
  code : Option String
  data : Option (List (List String))
  deriving DecidableEq, Repr

/-- One iteration of the row loop of `fetch_closed_candles`
(src lines 145-164): rows with fewer than 5 fields are skipped
(`.ok none`); a non-numeric `ts`/`o`/`h`/`l`/`c` field raises
(`.error ()`); the confirm flag defaults to 1 when field 8 is absent or
not all digits. -/
def parseRow (r : List String) : Except Unit (Option CandleP) :=
  if r.length < 5 then .ok none
  else
    match pyInt? (r.getD 0 ""), pyFloat? (r.getD 1 ""), pyFloat? (r.getD 2 ""),
        pyFloat? (r.getD 3 ""), pyFloat? (r.getD 4 "") with
    | some ts, some o, some h, some l, some c =>
      let confirm : Int :=
        if 8 < r.length then
          match digitsToNat? (r.getD 8 "").data with
          | some n => (n : Int)
          | none => 1
        else 1
      .ok (some { ts := ts, o := o, h := h, l := l, c := c, confirm := confirm })
    | _, _, _, _, _ => .error ()

/-- The whole row loop of `fetch_closed_candles` (src lines 144-164),
producing the `candles` list in row order. -/
def parseRows : List (List String) → Except Unit (List CandleP)
  | [] => .ok []
  | r :: rest =>
    match parseRow r with
    | .error e => .error e
    | .ok c? =>
      match parseRows rest with
      | .error e => .error e
      | .ok cs =>
        match c? with
        | some c => .ok (c :: cs)
        | none => .ok cs

/-- `fetch_closed_candles` (src lines 132-166) as a function of the HTTP
outcome: `resp = .error ()` models `http_get` raising (network/HTTP/JSON
error, src lines 109-129); a non-"0" code or missing `data` raises
`RuntimeError` (src lines 140-142); then rows are parsed and filtered to
the candles whose confirm flag equals 1. -/
def fetch_closed_candles : Except Unit OkxResp → Except Unit (List CandleP)
  | .error _ => .error ()
  | .ok d =>
    if (d.code.getD "None") ≠ "0" ∨ d.data = none then .error ()
    else
      match parseRows (d.data.getD []) with
      | .error e => .error e
      | .ok candles => .ok (candles.filter (fun x => x.confirm = 1))

/-- A watcher entry of the config's `watchers` array (src lines 284-287):
every field is optional, the loop applies the defaults. -/
structure Watcher where
  pair : Option String
  contract_type : Option String
  bar : Option String
  active_windows : Option (List Window)
  deriving DecidableEq, Repr

/-- The decoded configuration JSON object, restricted to the fields
`run_monitor` reads. -/
structure RawConfig where
  telegram_token : Option String
  telegram_chat_id : Option String
  ssl_verify : Option Bool
  poll_interval_seconds : Option Int
  watchers : Option (List Watcher)
  active_windows : Option (List Window)
  deriving DecidableEq, Repr

/-- The loop-local active configuration values extracted from a decoded
config (src lines 249-259 and 270-275): `token`, `chat_id`, `ssl_verify`,
`poll_interval`, `watchers`, `global_windows`, with the source's
defaults. -/
structure Snapshot where
  token : String
  chat_id : String
  ssl_verify : Bool
  poll_interval : Int
  watchers : List Watcher
  global_windows : List Window
  deriving DecidableEq, Repr

/-- Extraction of the active values from a decoded config, exactly the
assignments at src lines 249-251, 256-257, 259 (equally 270-275). -/
def applySnapshot (raw : RawConfig) : Snapshot :=
  { token := raw.telegram_token.getD ""
    chat_id := raw.telegram_chat_id.getD ""
    ssl_verify := raw.ssl_verify.getD true
    poll_interval := raw.poll_interval_seconds.getD 30
    watchers := raw.watchers.getD []
    global_windows := raw.active_windows.getD [] }

/-- The dedup key: (instrument id, normalized bar), src line 296. -/
abbrev DedupKey := String × String

/-- The in-memory dedup store `state_last_closed_ts` (src line 258), an
association list modelling the Python dict. -/
abbrev DedupState := List (DedupKey × Int)

/-- Dict lookup `state_last_closed_ts.get(key)` (src line 297). -/
def getKey : DedupState → DedupKey → Option Int
  | [], _ => none
  | (k, v) :: rest, key => if k = key then some v else getKey rest key

/-- Dict assignment `state_last_closed_ts[key] = ts` (src line 300). -/
def setKey : DedupState → DedupKey → Int → DedupState
  | [], key, v => [(key, v)]
  | (k, w) :: rest, key, v =>
    if k = key then (key, v) :: rest else (k, w) :: setKey rest key v

/-- Observable actions of the loop: `load` = `load_config` called during
the reload check (src line 269); `sleep n` = `time.sleep(poll_interval)`;
`fetch i b` = `fetch_closed_candles` called (src line 291); `eval i b ts`
= `pattern_signal` evaluated for the newest closed candle `ts`
(src line 303); `send i b ts ok` = `send_telegram` called with outcome
`ok` (src line 312); `error` = a per-watcher exception caught at
src line 320. -/
inductive Event where
  | load : Event
  | sleep : Int → Event
  | fetch : String → String → Event
  | eval : String → String → Int → Event
  | send : String → String → Int → Bool → Event
  | error : Event
  deriving DecidableEq, Repr

/-- The environment of one watcher iteration: the wall-clock instant at
its `now_in_windows` call, the HTTP outcome of its fetch, and whether
`send_telegram` would return True. -/
structure WEnv where
  now : NowT
  resp : Except Unit OkxResp
  send_ok : Bool
  deriving Repr

/-- The environment of one loop tick: the `os.path.getmtime` outcome, the
`load_config` outcome, the instant at the global `now_in_windows` call,
and the per-watcher environments (positionally matching the watcher
list). -/
structure TickEnv where
  mtime : Except Unit Int
  load : Except Unit RawConfig
  now : NowT
  wenvs : List WEnv
  deriving Repr

/-- The loop state across ticks: active snapshot, dedup store,
`last_mtime`. -/
structure LoopState where
  snap : Snapshot
  dedup : DedupState
  last_mtime : Int
  deriving Repr

/-- The body of one watcher iteration after the per-watcher window gate
(src lines 290-318): instrument parsing, fetch, length guard, dedup gate,
dedup update, pattern evaluation, send.  Exceptions (instrument parse,
fetch) are the caught-and-logged path of src lines 320-322 and yield an
`Event.error` with the dedup store untouched. -/
def watcherBody (w : Watcher) (e : WEnv) (d : DedupState) : DedupState × List Event :=
  let bar := normalize_bar (w.bar.getD "12H")
  match pair_to_inst_id (w.pair.getD "") (w.contract_type.getD "SWAP") with
  | .error _ => (d, [Event.error])
  | .ok instId =>
    match fetch_closed_candles e.resp with
    | .error _ => (d, [Event.fetch instId bar, Event.error])
    | .ok closed =>
      match closed with
      | c0 :: c1 :: c2 :: _ =>
        let key : DedupKey := (instId, bar)
        let skip : Bool :=
          match getKey d key with
          | some t => c0.ts = t
          | none => false
        if skip then (d, [Event.fetch instId bar])
        else
          let d' := setKey d key c0.ts
          match pattern_signal [c2, c1, c0] with
          | some _ =>
            (d', [Event.fetch instId bar, Event.eval instId bar c0.ts,
                  Event.send instId bar c0.ts e.send_ok])
          | none => (d', [Event.fetch instId bar, Event.eval instId bar c0.ts])
      | _ => (d, [Event.fetch instId bar])

/-- One watcher iteration (src lines 283-322): the per-watcher window
gate `if w_windows and not now_in_windows(w_windows): continue`
(src lines 287-289) runs first; an exception while parsing the watcher's
windows is caught by the per-watcher handler. -/
def processWatcher (w : Watcher) (e : WEnv) (d : DedupState) : DedupState × List Event :=
  match w.active_windows with
  | none => watcherBody w e d
  | some ws =>
    if ws.isEmpty then watcherBody w e d
    else
      match now_in_windows ws e.now with
      | none => (d, [Event.error])
      | some true => watcherBody w e d
      | some false => (d, [])

/-- The `for w in watchers` pass of a tick (src lines 282-322), threading
the dedup store and concatenating each watcher's events. -/
def processWatchers : List (Watcher × WEnv) → DedupState → DedupState × List Event
  | [], d => (d, [])
  | (w, e) :: rest, d =>
    let (d', ev) := processWatcher w e d
    let (d'', evs) := processWatchers rest d'
    (d'', ev ++ evs)

/-- The reload check at the top of a tick (src lines 265-278): on an
mtime-read exception nothing changes; on a changed mtime, `last_mtime` is
updated *before* `load_config` is attempted, and a load exception is
swallowed by `except Exception: pass`, keeping the old snapshot.  Returns
the snapshot and `last_mtime` in force for the rest of the tick, plus the
reload events. -/
def reloadStep (st : LoopState) (env : TickEnv) : Snapshot × Int × List Event :=
  match env.mtime with
  | .error _ => (st.snap, st.last_mtime, [])
  | .ok m =>
    if m ≠ st.last_mtime then
      match env.load with
      | .ok raw => (applySnapshot raw, m, [Event.load])
      | .error _ => (st.snap, m, [Event.load])
    else (st.snap, st.last_mtime, [])

/-- The part of a tick after the reload check (src lines 279-324), given
the snapshot and `last_mtime` in force and the reload events: global
window gate, per-watcher pass, sleep.  `none` models an uncaught
exception at the global `now_in_windows` call (src line 279), which is
outside every handler and crashes the loop. -/
def tickCore (snap : Snapshot) (lm : Int) (evR : List Event) (dedup : DedupState)
    (env : TickEnv) : Option (LoopState × List Event) :=
  match now_in_windows snap.global_windows env.now with
  | none => none
  | some false =>
    some ({ snap := snap, dedup := dedup, last_mtime := lm },
          evR ++ [Event.sleep snap.poll_interval])
  | some true =>
    let p := processWatchers (snap.watchers.zip env.wenvs) dedup
    some ({ snap := snap, dedup := p.1, last_mtime := lm },
          evR ++ p.2 ++ [Event.sleep snap.poll_interval])

/-- One iteration of the `while True` loop (src lines 264-324): the
reload check feeds the snapshot and mtime it leaves in force into the
rest of the tick. -/
def tick (st : LoopState) (env : TickEnv) : Option (LoopState × List Event) :=
  tickCore (reloadStep st env).1 (reloadStep st env).2.1 (reloadStep st env).2.2
    st.dedup env

/-- Finitely many iterations of the loop, accumulating the event trace;
`none` propagates a loop crash. -/
def runTicks (st : LoopState) : List TickEnv → Option (LoopState × List Event)
  | [] => some (st, [])
  | e :: es =>
    match tick st e with
    | none => none
    | some (st', ev) =>
      match runTicks st' es with
      | none => none
      | some (st'', evs) => some (st'', ev ++ evs)

/-- `run_monitor` (src lines 246-324) over a finite tick-environment
list: reads the startup configuration, returns before the loop when the
token or chat id is falsy (src lines 252-254, modelled as `some []`: a
clean return with an empty trace), otherwise enters the loop with an
empty dedup store and the initial mtime. -/
def run_monitor (raw : RawConfig) (mtime0 : Int) (envs : List TickEnv) :
    Option (List Event) :=
  let snap := applySnapshot raw
  if snap.token = "" ∨ snap.chat_id = "" then some []
  else
    (runTicks { snap := snap, dedup := [], last_mtime := mtime0 } envs).map
      (fun p => p.2)

/-- Number of send attempts for a given (instrument, bar) key and candle
timestamp in a trace. -/
def countSends (evs : List Event) (i b : String) (t : Int) : Nat :=
  evs.countP (fun ev =>
    match ev with
    | .send i' b' t' _ => i' = i && b' = b && t' = t
    | _ => false)

/-- A window-gate evaluation raising inside the per-watcher try block:
the watcher has a non-empty window list whose evaluation raises
(src line 288, caught at src line 320). -/
def windowRaises (w : Watcher) (e : WEnv) : Prop :=
  ∃ ws, w.active_windows = some ws ∧ ws ≠ [] ∧ now_in_windows ws e.now = none

/-- The per-watcher window gate lets the body run: the watcher has no
window list, an empty one, or one matching the current instant
(src lines 287-289). -/
def windowPasses (w : Watcher) (e : WEnv) : Prop :=
  w.active_windows = none ∨ w.active_windows = some [] ∨
  ∃ ws, w.active_windows = some ws ∧ now_in_windows ws e.now = some true

/-- Concrete configuration for the dedup scenarios: one watcher on
BTC-USDT SWAP at bar 1m, no windows. -/
def cexRaw : RawConfig :=
  { telegram_token := some "tok", telegram_chat_id := some "chat",
    ssl_verify := none, poll_interval_seconds := none,
    watchers := some [{ pair := some "BTC-USDT", contract_type := some "SWAP",
                        bar := some "1m", active_windows := none }],
    active_windows := none }

/-- OKX rows (newest first) whose top three candles classify, oldest
first, as bear (100→95), bear (95→90), bull (90→98): a bullish reversal
with newest closed timestamp 3. -/
def rowsA : List (List String) :=
  [["3", "90", "99", "80", "98", "0", "0", "0", "1"],
   ["2", "95", "96", "85", "90", "0", "0", "0", "1"],
   ["1", "100", "101", "94", "95", "0", "0", "0", "1"]]

/-- OKX rows (newest first) with newest closed timestamp 4 and no
reversal pattern (all bearish). -/
def rowsB : List (List String) :=
  [["4", "100", "101", "94", "95", "0", "0", "0", "1"],
   ["3", "100", "101", "94", "95", "0", "0", "0", "1"],
   ["2", "100", "101", "94", "95", "0", "0", "0", "1"]]

/-- A tick environment delivering the given rows for the single watcher,
with an unchanged config mtime and successful sends. -/
def mkEnv (rows : List (List String)) : TickEnv :=
  { mtime := .ok 0, load := .error (), now := ⟨"Mon", 0⟩,
    wenvs := [{ now := ⟨"Mon", 0⟩, resp := .ok ⟨some "0", some rows⟩,
                send_ok := true }] }

/-- Three ticks whose newest closed timestamps are 3, 4, 3: the same
candle timestamp 3 is observed again after a different timestamp was
recorded in between. -/
def cexEnvs : List TickEnv := [mkEnv rowsA, mkEnv rowsB, mkEnv rowsA]

/-! ### Helper lemmas -/

theorem getKey_setKey (d : DedupState) (k : DedupKey) (v : Int) :
    getKey (setKey d k v) k = some v := by
  induction d with
  | nil => simp [setKey, getKey]
  | cons hd tl ih =>
    obtain ⟨k', v'⟩ := hd
    by_cases h : k' = k
    · simp [setKey, getKey, h]
    · simp [setKey, getKey, h, ih]

theorem parseRows_length (rows : List (List String)) (all : List CandleP)
    (h : parseRows rows = .ok all) : all.length ≤ rows.length := by
  induction rows generalizing all with
  | nil =>
    have h' : all = [] := (Except.ok.inj h).symm
    simp [h']
  | cons r rest ih =>
    simp only [parseRows] at h
    cases hr : parseRow r with
    | error e => rw [hr] at h; simp at h
    | ok c? =>
      rw [hr] at h
      cases hrest : parseRows rest with
      | error e => rw [hrest] at h; simp at h
      | ok cs =>
        rw [hrest] at h
        cases c? with
        | some c =>
          simp at h
          subst h
          simpa [List.length] using Nat.succ_le_succ (ih cs hrest)
        | none =>
          simp at h
          subst h
          exact Nat.le_succ_of_le (ih cs hrest)

theorem now_in_windows_go_eq_true_iff (now : NowT) (ws : List Window)
    (h : ∀ w ∈ ws, window_active w now ≠ none) :
    now_in_windows_go now ws = some true ↔
      ∃ w ∈ ws, window_active w now = some true := by
  induction ws with
  | nil => simp [now_in_windows_go]
  | cons w rest ih =>
    cases ha : window_active w now with
    | none => exact absurd ha (h w (List.mem_cons_self w rest))
    | some b =>
      cases b with
      | true =>
        simp [now_in_windows_go, ha]
      | false =>
        have ih' := ih (fun x hx => h x (List.mem_cons_of_mem w hx))
        simp [now_in_windows_go, ha, ih']

/-! ### Claim theorems -/

/-- C9: instrument-identifier derivation: "BTC-USDT" + "SWAP" gives
"BTC-USDT-SWAP"; "ETHUSDT" + "永续" gives "ETH-USDT-SWAP"; "XYZ" raises
for every contract type; and every pair without a "-" or "/" delimiter
and without a USDT/USD suffix (after upper-casing and trimming) cannot be
decomposed into base and quote and raises the unsupported-format error. -/
theorem instrument_id_examples :
    pair_to_inst_id "BTC-USDT" "SWAP" = .ok "BTC-USDT-SWAP" ∧
    pair_to_inst_id "ETHUSDT" "永续" = .ok "ETH-USDT-SWAP" ∧
    (∀ ct : String, pair_to_inst_id "XYZ" ct = .error ("不支持的交易对格式: XYZ")) ∧
    (∀ pair ct : String,
        '-' ∉ trimChars (pyUpper pair).data →
        '/' ∉ trimChars (pyUpper pair).data →
        endsWithChars (trimChars (pyUpper pair).data) "USDT".data = false →
        endsWithChars (trimChars (pyUpper pair).data) "USD".data = false →
        pair_to_inst_id pair ct =
          .error ("不支持的交易对格式: " ++ ⟨trimChars (pyUpper pair).data⟩)) := by
  refine ⟨rfl, rfl, fun ct => rfl, ?_⟩
  intro pair ct h1 h2 h3 h4
  simp [pair_to_inst_id, h1, h2, h3, h4]

/-- Witness for C9: a concrete undecomposable pair, with the hypotheses
discharged by evaluation. -/
theorem instrument_id_examples_witness :
    pair_to_inst_id "FOO" "SWAP" =
      .error ("不支持的交易对格式: " ++ ⟨trimChars (pyUpper "FOO").data⟩) :=
  instrument_id_examples.2.2.2 "FOO" "SWAP" (by decide) (by decide) (by decide) (by decide)

/-- C2: classification trichotomy ("阳" = Bull for close > open, "阴" =
Bear for close < open, "十" = Doji otherwise); for every 3-candle list,
`pattern_signal` returns the bullish message ("BullishReversal") iff the
classifications are exactly [Bear, Bear, Bull] oldest first, the bearish
message iff exactly [Bull, Bull, Bear], and no signal otherwise; and
every list of fewer than 3 candles yields no signal rather than
failing. -/
theorem classify_and_pattern_spec :
    (∀ c : CandleP,
        (classify_candle c = "阳" ↔ c.o < c.c) ∧
        (classify_candle c = "阴" ↔ c.c < c.o) ∧
        (classify_candle c = "十" ↔ c.c = c.o)) ∧
    (∀ l : List CandleP, l.length = 3 →
        (pattern_signal l = some bullMsg ↔
          l.map classify_candle = ["阴", "阴", "阳"]) ∧
        (pattern_signal l = some bearMsg ↔
          l.map classify_candle = ["阳", "阳", "阴"]) ∧
        (l.map classify_candle ≠ ["阴", "阴", "阳"] →
          l.map classify_candle ≠ ["阳", "阳", "阴"] →
          pattern_signal l = none)) ∧
    (∀ l : List CandleP, l.length < 3 → pattern_signal l = none) := by
  refine ⟨?_, ?_, ?_⟩
  · intro c
    unfold classify_candle
    split_ifs with h1 h2
    · exact ⟨iff_of_true rfl h1, iff_of_false (by decide) (lt_asymm h1),
        iff_of_false (by decide) h1.ne'⟩
    · exact ⟨iff_of_false (by decide) h1, iff_of_true rfl h2,
        iff_of_false (by decide) h2.ne⟩
    · have he : c.c = c.o := le_antisymm (not_lt.mp h1) (not_lt.mp h2)
      exact ⟨iff_of_false (by decide) h1, iff_of_false (by decide) h2,
        iff_of_true rfl he⟩
  · intro l hl
    rcases l with _ | ⟨a, _ | ⟨b, _ | ⟨d, _ | ⟨e, t⟩⟩⟩⟩
    · simp at hl
    · simp at hl
    · simp at hl
    · have hps : pattern_signal [a, b, d] =
          (if [classify_candle a, classify_candle b, classify_candle d] =
              ["阴", "阴", "阳"] then some bullMsg
           else if [classify_candle a, classify_candle b, classify_candle d] =
              ["阳", "阳", "阴"] then some bearMsg
           else none) := rfl
      have hmap : [a, b, d].map classify_candle =
          [classify_candle a, classify_candle b, classify_candle d] := rfl
      rw [hps, hmap]
      by_cases hb : [classify_candle a, classify_candle b, classify_candle d] =
          ["阴", "阴", "阳"]
      · rw [if_pos hb]
        refine ⟨iff_of_true rfl hb, iff_of_false ?_ ?_, fun hn _ => absurd hb hn⟩
        · intro hsome
          exact absurd (Option.some.inj hsome) (by decide)
        · rw [hb]
          decide
      · rw [if_neg hb]
        by_cases hb2 : [classify_candle a, classify_candle b, classify_candle d] =
            ["阳", "阳", "阴"]
        · rw [if_pos hb2]
          refine ⟨iff_of_false ?_ hb, iff_of_true rfl hb2, fun _ hn => absurd hb2 hn⟩
          intro hsome
          exact absurd (Option.some.inj hsome) (by decide)
        · rw [if_neg hb2]
          exact ⟨iff_of_false (by simp) hb, iff_of_false (by simp) hb2,
            fun _ _ => rfl⟩
    · simp only [List.length_cons] at hl
      omega
  · intro l hl
    rcases l with _ | ⟨a, _ | ⟨b, _ | ⟨d, t⟩⟩⟩
    · rfl
    · rfl
    · rfl
    · simp only [List.length_cons] at hl
      omega

/-- Witness for C2: the spec's end-to-end triple (100,95),(95,90),(90,98)
signals a bullish reversal, and a single candle yields no signal. -/
theorem classify_and_pattern_spec_witness :
    pattern_signal
      [⟨1, 100, 101, 94, 95, 1⟩, ⟨2, 95, 96, 85, 90, 1⟩, ⟨3, 90, 99, 80, 98, 1⟩] =
        some bullMsg ∧
    pattern_signal [⟨1, 100, 101, 94, 95, 1⟩] = none :=
  ⟨(classify_and_pattern_spec.2.1
      [⟨1, 100, 101, 94, 95, 1⟩, ⟨2, 95, 96, 85, 90, 1⟩, ⟨3, 90, 99, 80, 98, 1⟩]
      (by decide)).1.mpr (by decide),
   classify_and_pattern_spec.2.2 _ (by decide)⟩

/-- C3: an empty window list evaluates to true; when every window's times
parse, the result is true iff some window in the list matches (OR across
windows); a single window matches iff its weekday constraint holds
(wildcard matches any day) AND its minute constraint holds, with
wrap-around when start > end; and the window 22:00-06:00 matches minutes
0, 1380 and 300 but not 720. -/
theorem now_in_windows_spec :
    (∀ now : NowT, now_in_windows [] now = some true) ∧
    (∀ (ws : List Window) (now : NowT),
        (∀ w ∈ ws, window_active w now ≠ none) →
        (now_in_windows ws now = some true ↔
          ws = [] ∨ ∃ w ∈ ws, window_active w now = some true)) ∧
    (∀ (w : Window) (now : NowT) (s t : Int),
        timeToMinutes (w.start.getD "00:00") = some s →
        timeToMinutes (w.stop.getD "23:59") = some t →
        (window_active w now = some true ↔
          (match w.days with | .star => True | .list l => now.dow ∈ l) ∧
          (if s ≤ t then s ≤ now.minutes ∧ now.minutes ≤ t
           else now.minutes ≥ s ∨ now.minutes ≤ t))) ∧
    (now_in_windows [⟨.star, some "22:00", some "06:00"⟩] ⟨"Mon", 0⟩ = some true ∧
     now_in_windows [⟨.star, some "22:00", some "06:00"⟩] ⟨"Mon", 1380⟩ = some true ∧
     now_in_windows [⟨.star, some "22:00", some "06:00"⟩] ⟨"Mon", 300⟩ = some true ∧
     now_in_windows [⟨.star, some "22:00", some "06:00"⟩] ⟨"Mon", 720⟩ = some false) := by
  refine ⟨fun now => rfl, ?_, ?_, by decide, by decide, by decide, by decide⟩
  · intro ws now h
    cases ws with
    | nil => simp [now_in_windows]
    | cons w rest =>
      rw [show now_in_windows (w :: rest) now = now_in_windows_go now (w :: rest)
        from rfl]
      rw [now_in_windows_go_eq_true_iff now (w :: rest) h]
      simp
  · intro w now s t hs ht
    cases hd : w.days with
    | star =>
      simp only [window_active, hs, ht, hd, Option.bind_eq_bind, Option.some_bind]
      by_cases hst : s ≤ t
      · simp [hst]
      · simp [hst]
    | list l =>
      simp only [window_active, hs, ht, hd, Option.bind_eq_bind, Option.some_bind]
      by_cases hc : now.dow ∈ l
      · have hc' : l.contains now.dow = true := List.elem_iff.mpr hc
        by_cases hst : s ≤ t
        · simp [hc', hc, hst]
        · simp [hc', hc, hst]
      · have hc' : l.contains now.dow = false :=
          Bool.eq_false_iff.mpr (fun hx => hc (List.elem_iff.mp hx))
        simp [hc', hc]

/-- Witness for C3: the wrap-around window instantiated in the OR rule
and in the single-window rule, hypotheses discharged by evaluation. -/
theorem now_in_windows_spec_witness :
    now_in_windows [⟨.star, some "22:00", some "06:00"⟩] ⟨"Mon", 300⟩ = some true ∧
    (window_active ⟨DaysSpec.star, some "22:00", some "06:00"⟩ ⟨"Mon", 300⟩ = some true ↔
      True ∧ (if (1320 : Int) ≤ 360 then 1320 ≤ (300 : Int) ∧ (300 : Int) ≤ 360
              else (300 : Int) ≥ 1320 ∨ (300 : Int) ≤ 360)) :=
  ⟨(now_in_windows_spec.2.1 _ _ (by decide)).mpr
      (Or.inr ⟨⟨DaysSpec.star, some "22:00", some "06:00"⟩, by decide, by decide⟩),
   now_in_windows_spec.2.2.1 ⟨DaysSpec.star, some "22:00", some "06:00"⟩
      ⟨"Mon", 300⟩ 1320 360 (by decide) (by decide)⟩

/-- C6: on success, `fetch_closed_candles` returns exactly the parsed
candles whose confirm flag is 1 (closed bars only), at most one candle
per response row (hence at most `limit` when the provider returns at most
`limit` rows, as requested), preserving newest-first order; it fails on
an HTTP/network/JSON-decode error, on a non-"0" code or missing `data`
envelope, and on a malformed (unparsable) row payload — the recoverable
failure the loop catches per watcher. -/
theorem fetch_closed_candles_spec :
    (∀ (d : OkxResp) (all cs : List CandleP),
        parseRows (d.data.getD []) = .ok all →
        fetch_closed_candles (.ok d) = .ok cs →
        cs = all.filter (fun x => x.confirm = 1) ∧
        (∀ c ∈ cs, c.confirm = 1) ∧
        cs.length ≤ (d.data.getD []).length ∧
        (∀ limit : Nat, (d.data.getD []).length ≤ limit → cs.length ≤ limit) ∧
        (List.Pairwise (fun a b => b.ts ≤ a.ts) all →
          List.Pairwise (fun a b => b.ts ≤ a.ts) cs)) ∧
    fetch_closed_candles (.error ()) = .error () ∧
    (∀ d : OkxResp, d.code.getD "None" ≠ "0" ∨ d.data = none →
        fetch_closed_candles (.ok d) = .error ()) ∧
    (∀ d : OkxResp, parseRows (d.data.getD []) = .error () →
        fetch_closed_candles (.ok d) = .error ()) := by
  refine ⟨?_, rfl, ?_, ?_⟩
  · intro d all cs hall hcs
    simp only [fetch_closed_candles] at hcs
    by_cases hcond : d.code.getD "None" ≠ "0" ∨ d.data = none
    · rw [if_pos hcond] at hcs
      exact absurd hcs (by simp)
    · rw [if_neg hcond] at hcs
      rw [hall] at hcs
      have hcseq : cs = all.filter (fun x => x.confirm = 1) :=
        (Except.ok.inj hcs).symm
      refine ⟨hcseq, ?_, ?_, ?_, ?_⟩
      · intro c hcm
        rw [hcseq] at hcm
        exact of_decide_eq_true (List.mem_filter.mp hcm).2
      · rw [hcseq]
        exact le_trans (List.length_filter_le _ all)
          (parseRows_length _ all hall)
      · intro limit hlim
        rw [hcseq]
        exact le_trans (le_trans (List.length_filter_le _ all)
          (parseRows_length _ all hall)) hlim
      · intro hpw
        rw [hcseq]
        exact List.Pairwise.sublist (List.filter_sublist all) hpw
  · intro d hcond
    simp only [fetch_closed_candles]
    rw [if_pos hcond]
  · intro d hpr
    simp only [fetch_closed_candles]
    by_cases hcond : d.code.getD "None" ≠ "0" ∨ d.data = none
    · rw [if_pos hcond]
    · rw [if_neg hcond, hpr]

/-- Witness for C6: a two-row response whose second candle is unclosed is
filtered down to one candle, and a response with code "1" fails. -/
theorem fetch_closed_candles_spec_witness :
    ([{ ts := 3, o := 90, h := 99, l := 80, c := 98, confirm := 1 }] :
        List CandleP).length ≤
      ([["3", "90", "99", "80", "98", "0", "0", "0", "1"],
        ["2", "95", "96", "85", "90", "0", "0", "0", "0"]] :
        List (List String)).length ∧
    fetch_closed_candles (.ok ⟨some "1", some []⟩) = .error () :=
  ⟨(fetch_closed_candles_spec.1
      ⟨some "0", some [["3", "90", "99", "80", "98", "0", "0", "0", "1"],
                       ["2", "95", "96", "85", "90", "0", "0", "0", "0"]]⟩
      [{ ts := 3, o := 90, h := 99, l := 80, c := 98, confirm := 1 },
       { ts := 2, o := 95, h := 96, l := 85, c := 90, confirm := 0 }]
      [{ ts := 3, o := 90, h := 99, l := 80, c := 98, confirm := 1 }]
      rfl rfl).2.2.1,
   fetch_closed_candles_spec.2.2.1 ⟨some "1", some []⟩ (Or.inl (by decide))⟩

/-- C7: when the config file's mtime equals the recorded one, the reload
check leaves every active value and the recorded mtime unchanged and
calls no load (no `Event.load`); the tick then runs on the same snapshot.
When the mtime differs and the load succeeds, the whole snapshot is
replaced by the values extracted from the newly loaded config, as one
snapshot. -/
theorem reload_noop_and_swap :
    (∀ (st : LoopState) (env : TickEnv),
        env.mtime = .ok st.last_mtime →
        reloadStep st env = (st.snap, st.last_mtime, [])) ∧
    (∀ (st : LoopState) (env : TickEnv) (st' : LoopState) (evs : List Event),
        env.mtime = .ok st.last_mtime →
        tick st env = some (st', evs) →
        st'.snap = st.snap ∧ st'.last_mtime = st.last_mtime) ∧
    (∀ (st : LoopState) (env : TickEnv) (m : Int) (raw : RawConfig),
        env.mtime = .ok m → m ≠ st.last_mtime → env.load = .ok raw →
        reloadStep st env = (applySnapshot raw, m, [Event.load])) ∧
    (∀ raw : RawConfig,
        applySnapshot raw =
          { token := raw.telegram_token.getD ""
            chat_id := raw.telegram_chat_id.getD ""
            ssl_verify := raw.ssl_verify.getD true
            poll_interval := raw.poll_interval_seconds.getD 30
            watchers := raw.watchers.getD []
            global_windows := raw.active_windows.getD [] }) := by
  have hnoop : ∀ (st : LoopState) (env : TickEnv),
      env.mtime = .ok st.last_mtime →
      reloadStep st env = (st.snap, st.last_mtime, []) := by
    intro st env h
    unfold reloadStep
    rw [h]
    simp
  refine ⟨hnoop, ?_, ?_, fun raw => rfl⟩
  · intro st env st' evs h htick
    unfold tick at htick
    rw [hnoop st env h] at htick
    unfold tickCore at htick
    split at htick
    · exact absurd htick (by simp)
    · simp only [Option.some.injEq, Prod.mk.injEq] at htick
      rw [← htick.1]
      exact ⟨rfl, rfl⟩
    · simp only [Option.some.injEq, Prod.mk.injEq] at htick
      rw [← htick.1]
      exact ⟨rfl, rfl⟩
  · intro st env m raw hm hne hload
    unfold reloadStep
    rw [hm, hload]
    simp [hne]

/-- Witness for C7: a tick with an unchanged mtime keeps the snapshot. -/
theorem reload_noop_and_swap_witness :
    reloadStep { snap := applySnapshot cexRaw, dedup := [], last_mtime := 7 }
        { mtime := .ok 7, load := .error (), now := ⟨"Mon", 0⟩, wenvs := [] } =
      (applySnapshot cexRaw, 7, []) ∧
    reloadStep { snap := applySnapshot cexRaw, dedup := [], last_mtime := 7 }
        { mtime := .ok 8,
          load := .ok { telegram_token := some "t2",
                        telegram_chat_id := some "c2", ssl_verify := some false,
                        poll_interval_seconds := some 5, watchers := some [],
                        active_windows := some [] },
          now := ⟨"Mon", 0⟩, wenvs := [] } =
      (applySnapshot { telegram_token := some "t2",
                       telegram_chat_id := some "c2",
                       ssl_verify := some false, poll_interval_seconds := some 5,
                       watchers := some [], active_windows := some [] },
       8, [Event.load]) :=
  ⟨reload_noop_and_swap.1 _ _ rfl,
   reload_noop_and_swap.2.2.1 _ _ 8 _ rfl (by decide) rfl⟩

/-- C8: when the mtime has changed but reloading raises, the exception is
swallowed: the snapshot (every active value) is kept, yet the recorded
mtime is updated to the new value — so on any later tick whose observed
mtime still equals that value, no load is attempted (no `Event.load`) and
the configuration again stays unchanged. -/
theorem reload_failure_keeps_config :
    ∀ (st : LoopState) (env : TickEnv) (m : Int),
      env.mtime = .ok m → m ≠ st.last_mtime → env.load = .error () →
      reloadStep st env = (st.snap, m, [Event.load]) ∧
      (∀ (st2 : LoopState) (env2 : TickEnv),
          st2.last_mtime = m → env2.mtime = .ok m →
          reloadStep st2 env2 = (st2.snap, st2.last_mtime, [])) := by
  intro st env m hm hne hload
  constructor
  · unfold reloadStep
    rw [hm, hload]
    simp [hne]
  · intro st2 env2 h2 hm2
    subst h2
    unfold reloadStep
    rw [hm2]
    simp

/-- Witness for C8: a failed reload at mtime 9 keeps the old snapshot and
records 9, and the next tick at mtime 9 attempts nothing. -/
theorem reload_failure_keeps_config_witness :
    reloadStep { snap := applySnapshot cexRaw, dedup := [], last_mtime := 7 }
        { mtime := .ok 9, load := .error (), now := ⟨"Mon", 0⟩, wenvs := [] } =
      (applySnapshot cexRaw, 9, [Event.load]) ∧
    reloadStep { snap := applySnapshot cexRaw, dedup := [], last_mtime := 9 }
        { mtime := .ok 9, load := .error (), now := ⟨"Mon", 0⟩, wenvs := [] } =
      (applySnapshot cexRaw, 9, []) :=
  ⟨(reload_failure_keeps_config _ _ 9 rfl (by decide) rfl).1,
   (reload_failure_keeps_config
      { snap := applySnapshot cexRaw, dedup := [], last_mtime := 7 }
      { mtime := .ok 9, load := .error (), now := ⟨"Mon", 0⟩, wenvs := [] }
      9 rfl (by decide) rfl).2
      { snap := applySnapshot cexRaw, dedup := [], last_mtime := 9 }
      { mtime := .ok 9, load := .error (), now := ⟨"Mon", 0⟩, wenvs := [] }
      rfl rfl⟩

/-- C10: whenever the configured token or chat id is missing or empty,
`run_monitor` returns cleanly before entering the poll loop, for every
sequence of tick environments: the trace is empty (no fetch, no
notification is ever attempted). -/
theorem missing_credentials_no_loop :
    ∀ (raw : RawConfig) (mtime0 : Int) (envs : List TickEnv),
      raw.telegram_token.getD "" = "" ∨ raw.telegram_chat_id.getD "" = "" →
      run_monitor raw mtime0 envs = some [] := by
  intro raw m envs h
  unfold run_monitor
  have h' : (applySnapshot raw).token = "" ∨ (applySnapshot raw).chat_id = "" := h
  rw [if_pos h']

/-- Witness for C10: a config with no token produces the empty trace even
with pending tick environments. -/
theorem missing_credentials_no_loop_witness :
    run_monitor { telegram_token := none, telegram_chat_id := some "c",
                  ssl_verify := none, poll_interval_seconds := none,
                  watchers := none, active_windows := none }
      0 [mkEnv rowsA] = some [] :=
  missing_credentials_no_loop _ 0 [mkEnv rowsA] (Or.inl rfl)

/-- C4: on a tick whose current time is outside the (post-reload-check)
global active windows, the loop does no per-watcher work — the tick's
events are just the reload events followed by a sleep of the poll
interval, and the dedup state is untouched; and within any tick, a
watcher whose own non-empty window list excludes the current time is
skipped before any fetch, evaluation or send (it contributes no events
and leaves the dedup state unchanged). -/
theorem window_gating :
    (∀ (st : LoopState) (env : TickEnv),
        now_in_windows (reloadStep st env).1.global_windows env.now = some false →
        tick st env =
          some ({ snap := (reloadStep st env).1, dedup := st.dedup,
                  last_mtime := (reloadStep st env).2.1 },
                (reloadStep st env).2.2 ++
                  [Event.sleep (reloadStep st env).1.poll_interval])) ∧
    (∀ (w : Watcher) (e : WEnv) (d : DedupState) (ws : List Window),
        w.active_windows = some ws → ws ≠ [] →
        now_in_windows ws e.now = some false →
        processWatcher w e d = (d, [])) := by
  constructor
  · intro st env h
    unfold tick tickCore
    rw [h]
  · intro w e d ws hw hne h
    cases ws with
    | nil => exact absurd rfl hne
    | cons a t => simp [processWatcher, hw, h]

/-- Witness for C4: a tick at minute 0 against a 10:00-11:00 global
window only sleeps, and a watcher with that window is skipped. -/
theorem window_gating_witness :
    tick { snap := { token := "t", chat_id := "c", ssl_verify := true,
                     poll_interval := 30, watchers := [],
                     global_windows := [⟨DaysSpec.star, some "10:00", some "11:00"⟩] },
           dedup := [], last_mtime := 0 }
        { mtime := .ok 0, load := .error (), now := ⟨"Mon", 0⟩, wenvs := [] } =
      some ({ snap := { token := "t", chat_id := "c", ssl_verify := true,
                        poll_interval := 30, watchers := [],
                        global_windows := [⟨DaysSpec.star, some "10:00", some "11:00"⟩] },
              dedup := [], last_mtime := 0 },
            [Event.sleep 30]) ∧
    processWatcher { pair := some "BTC-USDT", contract_type := some "SWAP",
                     bar := some "1m",
                     active_windows := some [⟨DaysSpec.star, some "10:00", some "11:00"⟩] }
        { now := ⟨"Mon", 0⟩, resp := .error (), send_ok := true } [] = ([], []) :=
  ⟨window_gating.1 _ _ (by decide),
   window_gating.2 _ _ [] _ rfl (by decide) (by decide)⟩

/-- C5: a watcher whose processing raises — a window-parse exception, an
unsupported instrument format, or a fetch failure — is caught: its dedup
state is unchanged, its only events are the caught-error marker (and at
most a fetch attempt), and every subsequent watcher of the same tick is
processed exactly as if the failing watcher's pass had not happened; in
particular the loop does not terminate. -/
theorem per_watcher_error_containment :
    ∀ (w : Watcher) (e : WEnv) (rest : List (Watcher × WEnv)) (d : DedupState),
      (windowRaises w e ∨
        (windowPasses w e ∧
          ((∃ msg, pair_to_inst_id (w.pair.getD "") (w.contract_type.getD "SWAP") =
              .error msg) ∨
            fetch_closed_candles e.resp = .error ()))) →
      (processWatcher w e d).1 = d ∧
      Event.error ∈ (processWatcher w e d).2 ∧
      (∀ ev ∈ (processWatcher w e d).2,
        ev = Event.error ∨ ∃ i b, ev = Event.fetch i b) ∧
      processWatchers ((w, e) :: rest) d =
        ((processWatchers rest d).1,
          (processWatcher w e d).2 ++ (processWatchers rest d).2) := by
  intro w e rest d hcause
  have hbody : ∃ pre, Event.error ∈ pre ∧
      (∀ ev ∈ pre, ev = Event.error ∨ ∃ i b, ev = Event.fetch i b) ∧
      processWatcher w e d = (d, pre) := by
    rcases hcause with ⟨ws, hw, hne, hnone⟩ | ⟨hpass, hinner⟩
    · refine ⟨[Event.error], by simp, ?_, ?_⟩
      · intro ev hev
        rw [List.mem_singleton] at hev
        exact Or.inl hev
      · cases ws with
        | nil => exact absurd rfl hne
        | cons a t => simp [processWatcher, hw, hnone]
    · have hb : processWatcher w e d = watcherBody w e d := by
        rcases hpass with hw | hw | ⟨ws, hw, htrue⟩
        · simp [processWatcher, hw]
        · simp [processWatcher, hw]
        · cases ws with
          | nil => simp [processWatcher, hw]
          | cons a t => simp [processWatcher, hw, htrue]
      rcases hinner with ⟨msg, hpair⟩ | hf
      · refine ⟨[Event.error], by simp, ?_, ?_⟩
        · intro ev hev
          rw [List.mem_singleton] at hev
          exact Or.inl hev
        · rw [hb]
          simp [watcherBody, hpair]
      · cases hp : pair_to_inst_id (w.pair.getD "") (w.contract_type.getD "SWAP") with
        | error msg =>
          refine ⟨[Event.error], by simp, ?_, ?_⟩
          · intro ev hev
            rw [List.mem_singleton] at hev
            exact Or.inl hev
          · rw [hb]
            simp [watcherBody, hp]
        | ok instId =>
          refine ⟨[Event.fetch instId (normalize_bar (w.bar.getD "12H")),
                   Event.error], by simp, ?_, ?_⟩
          · intro ev hev
            simp only [List.mem_cons, List.mem_singleton, List.not_mem_nil,
              or_false] at hev
            rcases hev with rfl | rfl
            · exact Or.inr ⟨_, _, rfl⟩
            · exact Or.inl rfl
          · rw [hb]
            simp [watcherBody, hp, hf]
  obtain ⟨pre, hmem, hshape, heq⟩ := hbody
  rcases hrest : processWatchers rest d with ⟨d2, evs2⟩
  refine ⟨by rw [heq], by rw [heq]; exact hmem, by rw [heq]; exact hshape, ?_⟩
  simp only [processWatchers]
  rw [heq, hrest]

/-- Witness for C5: an unparsable pair ("XYZ") errors out while the next
watcher of the same tick is processed exactly as without it. -/
theorem per_watcher_error_containment_witness :
    (processWatcher { pair := some "XYZ", contract_type := none, bar := none,
                      active_windows := none }
        { now := ⟨"Mon", 0⟩, resp := .error (), send_ok := true } []).1 = [] ∧
    processWatchers
        [({ pair := some "XYZ", contract_type := none, bar := none,
            active_windows := none },
          { now := ⟨"Mon", 0⟩, resp := .error (), send_ok := true }),
         ({ pair := some "BTC-USDT", contract_type := some "SWAP",
            bar := some "1m", active_windows := none },
          { now := ⟨"Mon", 0⟩, resp := .ok ⟨some "0", some rowsA⟩,
            send_ok := true })] [] =
      ((processWatchers
          [({ pair := some "BTC-USDT", contract_type := some "SWAP",
              bar := some "1m", active_windows := none },
            { now := ⟨"Mon", 0⟩, resp := .ok ⟨some "0", some rowsA⟩,
              send_ok := true })] []).1,
        (processWatcher { pair := some "XYZ", contract_type := none, bar := none,
                          active_windows := none }
            { now := ⟨"Mon", 0⟩, resp := .error (), send_ok := true } []).2 ++
          (processWatchers
            [({ pair := some "BTC-USDT", contract_type := some "SWAP",
                bar := some "1m", active_windows := none },
              { now := ⟨"Mon", 0⟩, resp := .ok ⟨some "0", some rowsA⟩,
                send_ok := true })] []).2) :=
  ⟨(per_watcher_error_containment
      { pair := some "XYZ", contract_type := none, bar := none,
        active_windows := none }
      { now := ⟨"Mon", 0⟩, resp := .error (), send_ok := true } [] []
      (Or.inr ⟨Or.inl rfl, Or.inl ⟨"不支持的交易对格式: XYZ", rfl⟩⟩)).1,
   (per_watcher_error_containment
      { pair := some "XYZ", contract_type := none, bar := none,
        active_windows := none }
      { now := ⟨"Mon", 0⟩, resp := .error (), send_ok := true }
      [({ pair := some "BTC-USDT", contract_type := some "SWAP",
          bar := some "1m", active_windows := none },
        { now := ⟨"Mon", 0⟩, resp := .ok ⟨some "0", some rowsA⟩,
          send_ok := true })] []
      (Or.inr ⟨Or.inl rfl, Or.inl ⟨"不支持的交易对格式: XYZ", rfl⟩⟩)).2.2.2⟩

/-- C1 (amended): the dedup gate and record-before-send.  Whenever the
watcher body runs with a parsed instrument and a successful fetch of at
least 3 closed candles: (i) if the dedup store already records the newest
closed timestamp for the key, the body only attempts the fetch — no
pattern evaluation, no send, store unchanged; (ii) in every case the
store afterwards records the newest closed timestamp for the key — the
entry is set before the send outcome is looked at, so this holds for a
failed delivery (`e.send_ok` is arbitrary) and even when no signal
fires. -/
theorem dedup_skip_and_record :
    ∀ (w : Watcher) (e : WEnv) (d : DedupState) (c0 c1 c2 : CandleP)
      (rest : List CandleP) (instId bar : String),
      pair_to_inst_id (w.pair.getD "") (w.contract_type.getD "SWAP") = .ok instId →
      bar = normalize_bar (w.bar.getD "12H") →
      fetch_closed_candles e.resp = .ok (c0 :: c1 :: c2 :: rest) →
      (getKey d (instId, bar) = some c0.ts →
        watcherBody w e d = (d, [Event.fetch instId bar])) ∧
      getKey (watcherBody w e d).1 (instId, bar) = some c0.ts := by
  intro w e d c0 c1 c2 rest instId bar hpair hbar hfetch
  subst hbar
  constructor
  · intro hget
    simp [watcherBody, hpair, hfetch, hget]
  · by_cases hget : getKey d (instId, normalize_bar (w.bar.getD "12H")) = some c0.ts
    · simp [watcherBody, hpair, hfetch, hget]
    · cases hk : getKey d (instId, normalize_bar (w.bar.getD "12H")) with
      | none =>
        simp only [watcherBody, hpair, hfetch, hk]
        cases hps : pattern_signal [c2, c1, c0] <;> simp [getKey_setKey]
      | some t =>
        have hne : ¬ (c0.ts = t) := fun hEq => hget (by rw [hk, hEq])
        simp only [watcherBody, hpair, hfetch, hk]
        cases hps : pattern_signal [c2, c1, c0] <;> simp [hne, getKey_setKey]

/-- Witness for C1's amended theorem: with timestamp 3 already recorded,
the watcher only fetches; starting from an empty store with a failing
send, timestamp 3 is recorded anyway. -/
theorem dedup_skip_and_record_witness :
    watcherBody { pair := some "BTC-USDT", contract_type := some "SWAP",
                  bar := some "1m", active_windows := none }
        { now := ⟨"Mon", 0⟩, resp := .ok ⟨some "0", some rowsA⟩, send_ok := false }
        [(("BTC-USDT-SWAP", "1m"), 3)] =
      ([(("BTC-USDT-SWAP", "1m"), 3)], [Event.fetch "BTC-USDT-SWAP" "1m"]) ∧
    getKey (watcherBody { pair := some "BTC-USDT", contract_type := some "SWAP",
                          bar := some "1m", active_windows := none }
        { now := ⟨"Mon", 0⟩, resp := .ok ⟨some "0", some rowsA⟩, send_ok := false }
        []).1 ("BTC-USDT-SWAP", "1m") = some 3 :=
  ⟨(dedup_skip_and_record
      { pair := some "BTC-USDT", contract_type := some "SWAP",
        bar := some "1m", active_windows := none }
      { now := ⟨"Mon", 0⟩, resp := .ok ⟨some "0", some rowsA⟩, send_ok := false }
      [(("BTC-USDT-SWAP", "1m"), 3)]
      ⟨3, 90, 99, 80, 98, 1⟩ ⟨2, 95, 96, 85, 90, 1⟩ ⟨1, 100, 101, 94, 95, 1⟩ []
      "BTC-USDT-SWAP" "1m" rfl rfl rfl).1 rfl,
   (dedup_skip_and_record
      { pair := some "BTC-USDT", contract_type := some "SWAP",
        bar := some "1m", active_windows := none }
      { now := ⟨"Mon", 0⟩, resp := .ok ⟨some "0", some rowsA⟩, send_ok := false }
      []
      ⟨3, 90, 99, 80, 98, 1⟩ ⟨2, 95, 96, 85, 90, 1⟩ ⟨1, 100, 101, 94, 95, 1⟩ []
      "BTC-USDT-SWAP" "1m" rfl rfl rfl).2⟩

/-- C1 (counterexample to the claim as stated): over the lifetime of one
run, the loop sends twice for the same key and the same closed-candle
timestamp 3, because a different timestamp (4) was recorded in between —
the dedup entry only remembers the last timestamp. -/
theorem dedup_lifetime_counterexample :
    (run_monitor cexRaw 0 cexEnvs).isSome = true ∧
    countSends ((run_monitor cexRaw 0 cexEnvs).getD []) "BTC-USDT-SWAP" "1m" 3 = 2 := by
  exact ⟨by decide, by decide⟩

end OkxMonitor
